import Mathlib

/-!
Shallow embedding of the jsc_hashtable repository (src/hashtable.h and the
single C source file): a chained hash table mapping byte-string keys to
caller-owned values.  Keys are modelled as lists of byte values (`List Nat`),
values as `Nat` (only their identity matters), and the seeded avalanche hash
`hashlittle(bytes, len, seed)` as an arbitrary function parameter
`hash : List Nat → Nat` applied to the first `keylen` bytes of the key buffer
(the C function reads exactly `len` bytes).  Pointer structure of a bucket's
intrusive singly-linked list is modelled by a `List` of items: `head` is the
list head, `tail` the last element (the source keeps `tail` in sync on insert;
removal only ever unlinks the head, so the derived last element agrees with
the stored `tail` pointer whenever the chain is non-empty).  A read through a
null `head` pointer (reachable in `_hashtable_find` after removals empty a
chain) is modelled as `Except.error ()`.
-/

set_option autoImplicit false

namespace JscHashtable

/-- GROWTH factor from hashtable.h: `#define HASHTABLE_GROWTH_FACTOR 2`. -/
def HASHTABLE_GROWTH_FACTOR : Nat := 2

/-- A key/value entry (`hash_item_t`).  `key` is the stored copy made by
`_internal_strdup`: the first `keylen` caller bytes followed by a terminating
0 byte.  The intrusive `next` link is represented by list structure. -/
structure hash_item_t where
  key : List Nat
  keylen : Nat
  value : Nat
  deriving Repr, DecidableEq

/-- A bucket (`bucket_t`): the chain of items sharing one slot, its stored
`size` counter and the monotone `had_collision` flag.  `head`/`tail` pointers
are represented by the list itself. -/
structure bucket_t where
  chain : List hash_item_t
  size : Nat
  had_collision : Bool
  deriving Repr, DecidableEq

/-- The table (`hashtable_t`): slot array of optional buckets (a `NULL`
bucket pointer is `none`), live-item counter, capacity and load threshold. -/
structure hashtable_t where
  table_size : Nat
  num_items : Nat
  max_load_factor : Nat
  buckets : List (Option bucket_t)
  deriving Repr, DecidableEq

/-- Whether `strncmp s1 s2 n == 0` for byte buffers: compare at most `n`
bytes, stopping early at the first difference or at a 0 byte present in both
strings.  (The fall-off-the-end cases are never reached by the call sites:
stored keys are 0-terminated and query buffers hold `keylen` bytes.) -/
def strncmp_eq : List Nat → List Nat → Nat → Bool
  | _, _, 0 => true
  | c1 :: t1, c2 :: t2, n + 1 =>
      if c1 = c2 then (if c1 = 0 then true else strncmp_eq t1 t2 n) else false
  | [], [], _ + 1 => true
  | _, _, _ + 1 => false

/-- Key duplication (`_internal_strdup`): copy `len` bytes and append a
terminating 0 byte. -/
def _internal_strdup (src : List Nat) (len : Nat) : List Nat :=
  src.take len ++ [0]

/-- Item creation (`_hash_item_create`): duplicate the key, record its length
and the caller's value. -/
def _hash_item_create (key : List Nat) (keylen : Nat) (value : Nat) : hash_item_t :=
  { key := _internal_strdup key keylen, keylen := keylen, value := value }

/-- Bucket initialisation (`_bucket_init`): empty chain, size 0, no
collision recorded. -/
def _bucket_init : bucket_t :=
  { chain := [], size := 0, had_collision := false }

/-- Append an item at the tail of a bucket's chain (`_bucket_insert`);
increment `size` and latch `had_collision` once `size` exceeds 1. -/
def _bucket_insert (bucket : bucket_t) (item : hash_item_t) : bucket_t :=
  { chain := bucket.chain ++ [item],
    size := bucket.size + 1,
    had_collision := bucket.had_collision || decide (bucket.size + 1 > 1) }

/-- Duplicate scan used by insertion (`_key_in_bucket`): walk the chain from
the head and return the first item with `strncmp(item->key, key, keylen) == 0`.
Note the source compares only `keylen` bytes and never the stored `keylen`
field. -/
def _key_in_bucket (bucket : bucket_t) (key : List Nat) (keylen : Nat) :
    Option hash_item_t :=
  bucket.chain.find? fun it => strncmp_eq it.key key keylen

/-- Overwrite the value of the first `strncmp`-matching item of a chain (the
item `_key_in_bucket` reports); used by the `override` branch of insertion. -/
def overwriteFirstValue : List hash_item_t → List Nat → Nat → Nat → List hash_item_t
  | [], _, _, _ => []
  | it :: rest, key, keylen, v =>
      if strncmp_eq it.key key keylen then { it with value := v } :: rest
      else it :: overwriteFirstValue rest key keylen v

/-- Table creation (`hashtable_create`): `initial_size` empty (`NULL`)
slots, zero items, the given load threshold.  (Allocation is modelled as
always succeeding.) -/
def hashtable_create (initial_size : Nat) (max_loadfactor : Nat) : hashtable_t :=
  { table_size := initial_size,
    num_items := 0,
    max_load_factor := max_loadfactor,
    buckets := List.replicate initial_size none }

/-- Structural insertion (`_hashtable_insert`).  Returns the updated table
together with the C return code: `0` a new item was created and appended,
`1` an existing item's value was overwritten (`override` set), `-1` the key
was already present and `override` is off.  The slot index is
`hashlittle(key, keylen, seed) % table_size`. -/
def _hashtable_insert (hash : List Nat → Nat) (t : hashtable_t) (key : List Nat)
    (keylen : Nat) (value : Nat) (override : Bool) : hashtable_t × Int :=
  let index := hash (key.take keylen) % t.table_size
  match t.buckets.getD index none with
  | some bucket =>
      match _key_in_bucket bucket key keylen with
      | some _ =>
          if !override then (t, -1)
          else
            let bucket2 := { bucket with
                             chain := overwriteFirstValue bucket.chain key keylen value }
            ({ t with buckets := t.buckets.set index (some bucket2) }, 1)
      | none =>
          let new_pair := _hash_item_create key keylen value
          let bucket2 := _bucket_insert bucket new_pair
          ({ t with buckets := t.buckets.set index (some bucket2) }, 0)
  | none =>
      let new_pair := _hash_item_create key keylen value
      let bucket2 := _bucket_insert _bucket_init new_pair
      ({ t with buckets := t.buckets.set index (some bucket2) }, 0)

/-- Chain migration step of growth: re-insert every item of an old chain, in
order, into the table being built (`_hashtable_insert` with `override = 0`
and no deallocator), as in the inner loop of `_hashtable_grow`. -/
def growInsertChain (hash : List Nat → Nat) (t : hashtable_t)
    (chain : List hash_item_t) : hashtable_t :=
  chain.foldl
    (fun acc it => (_hashtable_insert hash acc it.key it.keylen it.value false).1) t

/-- Growth (`_hashtable_grow`): create a table of `table_size *
HASHTABLE_GROWTH_FACTOR` slots with the same load threshold, then walk every
slot of the old table, migrating each bucket's chain via `_hashtable_insert`.
The old structures are freed; the new table is returned.  Note the source
never touches `num_items` of the new table. -/
def _hashtable_grow (hash : List Nat → Nat) (t : hashtable_t) : hashtable_t :=
  t.buckets.foldl
    (fun acc ob =>
      match ob with
      | none => acc
      | some b => growInsertChain hash acc b.chain)
    (hashtable_create (t.table_size * HASHTABLE_GROWTH_FACTOR) t.max_load_factor)

/-- Public insertion (`hashtable_set`).  On structural-insert code 0 the
item counter is incremented and, when `num_items / table_size >=
max_load_factor`, growth runs and the call returns `(grown table, 0)`.
Every other path — including a successful non-growing insert and a
successful overwrite — falls through to the final `return -1`, with the
mutated table still visible through the caller's pointer. -/
def hashtable_set (hash : List Nat → Nat) (t : hashtable_t) (key : List Nat)
    (keylen : Nat) (value : Nat) (replace : Bool) : hashtable_t × Int :=
  let r := _hashtable_insert hash t key keylen value replace
  if r.2 = 0 then
    let t2 := { r.1 with num_items := r.1.num_items + 1 }
    if t2.max_load_factor ≤ t2.num_items / t2.table_size then
      (_hashtable_grow hash t2, 0)
    else
      (t2, -1)
  else
    (r.1, -1)

/-- Lookup core (`_hashtable_find`).  `Except.error ()` marks the dereference
of a `NULL` `bucket->head` (line `strncmp(bucket->head->key, ...)`), reachable
when a chain has been emptied by removals while `size`/`had_collision` keep
their stale values.  Fast path: a bucket that never collided and has `size ==
1` returns its head with no key comparison at all.  Otherwise the head is
compared, then the loop `while (curr != tail) { curr = curr->next; ... }`
scans the rest of the chain. -/
def _hashtable_find (hash : List Nat → Nat) (t : hashtable_t) (key : List Nat)
    (keylen : Nat) : Except Unit (Option hash_item_t) :=
  let index := hash (key.take keylen) % t.table_size
  match t.buckets.getD index none with
  | none => .ok none
  | some bucket =>
      if !bucket.had_collision && bucket.size == 1 then
        .ok bucket.chain.head?
      else
        match bucket.chain.head? with
        | none => .error ()
        | some h =>
            if strncmp_eq h.key key keylen then .ok (some h)
            else .ok ((bucket.chain.drop 1).find? fun it => strncmp_eq key it.key keylen)

/-- Value lookup (`hashtable_get`): `.ok none` models the `NULL` return for
a missing key, `.ok (some v)` a found value. -/
def hashtable_get (hash : List Nat → Nat) (t : hashtable_t) (key : List Nat)
    (keylen : Nat) : Except Unit (Option Nat) :=
  match _hashtable_find hash t key keylen with
  | .error e => .error e
  | .ok none => .ok none
  | .ok (some pair) => .ok (some pair.value)

/-- Existence check (`hashtable_exists_pair`): 1/0 in C, `Bool` here. -/
def hashtable_exists_pair (hash : List Nat → Nat) (t : hashtable_t) (key : List Nat)
    (keylen : Nat) : Except Unit Bool :=
  match _hashtable_find hash t key keylen with
  | .error e => .error e
  | .ok (some _) => .ok true
  | .ok none => .ok false

/-- One fuelled run of the removal scan loop of `_hashtable_remove`:
`while (temp_item != NULL) { if (strncmp(key, temp_item->key, keylen) == 0)
{ ... return 0; } }`.  The loop body never advances `temp_item` (nor
`prev_item`), so on a non-match the recursive call re-examines the same
cursor; `none` means the fuel ran out with the loop still running (the C
loop never terminates on that input).  On a match the cursor is necessarily
still `bucket->head` (it never moved), so the unlink is `head = head->next`,
i.e. dropping the head of the chain; the result is `some (some newChain)`.
`some none` is the `temp_item == NULL` loop exit (not found). -/
def removeScanLoop (key : List Nat) (keylen : Nat) (chain : List hash_item_t) :
    Option hash_item_t → Nat → Option (Option (List hash_item_t))
  | _, 0 => none
  | none, _ + 1 => some none
  | some it, fuel + 1 =>
      if strncmp_eq key it.key keylen then some (some (chain.drop 1))
      else removeScanLoop key keylen chain (some it) fuel

/-- Removal (`_hashtable_remove`) with explicit fuel for its scan loop.
Returns `none` when the loop has not terminated within `fuel` iterations,
otherwise `some (table', code)` with code 0 on successful unlink (item and
key freed, `num_items` decremented; the bucket's `size` and `had_collision`
are left untouched) and -1 when the table is empty, the slot has no bucket,
the chain is empty, or the scan exits without a match. -/
def _hashtable_remove (hash : List Nat → Nat) (t : hashtable_t) (key : List Nat)
    (keylen : Nat) (fuel : Nat) : Option (hashtable_t × Int) :=
  if t.num_items = 0 then some (t, -1)
  else
    let index := hash (key.take keylen) % t.table_size
    match t.buckets.getD index none with
    | none => some (t, -1)
    | some bucket =>
        match bucket.chain.head? with
        | none => some (t, -1)
        | some _ =>
            match removeScanLoop key keylen bucket.chain bucket.chain.head? fuel with
            | none => none
            | some none => some (t, -1)
            | some (some chain2) =>
                let bucket2 := { bucket with chain := chain2 }
                let t2 := { t with
                            num_items := t.num_items - 1,
                            buckets := t.buckets.set index (some bucket2) }
                some (t2, 0)

/-- Observable effects of `hashtable_destroy`: how many bucket objects were
visited (and freed), which values were handed to the deallocator (in visit
order), and how many items were freed.  The slot array and table object are
always freed; the source walks the slots only under `if (table->num_items)`. -/
structure DestroyTrace where
  freed_buckets : Nat
  deallocated : List Nat
  freed_items : Nat
  deriving Repr, DecidableEq

/-- Destruction (`hashtable_destroy`), modelled as the trace of what it
frees.  `hasDealloc` is whether a non-`NULL` deallocator was supplied. -/
def hashtable_destroy (t : hashtable_t) (hasDealloc : Bool) : DestroyTrace :=
  if t.num_items ≠ 0 then
    t.buckets.foldl
      (fun acc ob =>
        match ob with
        | none => acc
        | some b =>
            { freed_buckets := acc.freed_buckets + 1,
              deallocated :=
                acc.deallocated ++ (if hasDealloc then b.chain.map (·.value) else []),
              freed_items := acc.freed_items + b.chain.length })
      ⟨0, [], 0⟩
  else ⟨0, [], 0⟩

/-- Seed initialiser (`set_hashtable_seed`).  `seed` is the current value of
the global `hashtable_seed`, `new_seed` the candidate, `derived_seed` the
value `pid_seed_generate` would produce from wall-clock time and process id;
the result is the global's value after the call.  Note the source only ever
writes the derived seed: a non-zero candidate is never stored. -/
def set_hashtable_seed (seed : Nat) (new_seed : Nat) (derived_seed : Nat) : Nat :=
  if seed = 0 then
    (if new_seed = 0 then derived_seed else seed)
  else seed

/-- Degenerate hash used for the concrete executions below: with a table of
size 1 every key lands in slot 0 whatever the real `hashlittle` returns, so
this choice is observationally identical to the real hash there. -/
def hash0 : List Nat → Nat := fun _ => 0

end JscHashtable

namespace JscHashtable

/-! ### Concrete byte-string keys and tables used in the claim instances -/

/-- The one-byte key "a". -/
def keyA : List Nat := [97]

/-- The one-byte key "b". -/
def keyB : List Nat := [98]

/-- The one-byte key "x". -/
def keyX : List Nat := [120]

/-- The two-byte key "ab". -/
def keyAB : List Nat := [97, 98]

/-- The three-byte key "abc". -/
def keyABC : List Nat := [97, 98, 99]

/-- A 1-slot table (load threshold 10) holding only "a" ↦ 7; its bucket has
`size = 1` and `had_collision = false`. -/
def tSingleA : hashtable_t :=
  (hashtable_set hash0 (hashtable_create 1 10) keyA 1 7 false).1

/-- The bucket of `tSingleA`. -/
def bSingleA : bucket_t :=
  { chain := [{ key := [97, 0], keylen := 1, value := 7 }],
    size := 1, had_collision := false }

/-- A 1-slot table holding "abc" ↦ 3 and "x" ↦ 4 in one chain (so the
single-item fast path of `_hashtable_find` is not taken). -/
def tABCX : hashtable_t :=
  (hashtable_set hash0
    ((hashtable_set hash0 (hashtable_create 1 10) keyABC 3 3 false).1)
    keyX 1 4 false).1

/-- A 1-slot table holding "ab" ↦ 10 and "abc" ↦ 20 in one chain. -/
def tABABC : hashtable_t :=
  (hashtable_set hash0
    ((hashtable_set hash0 (hashtable_create 1 10) keyAB 2 10 false).1)
    keyABC 3 20 false).1

/-- `tABABC` after `_hashtable_remove` of "ab" (which succeeds with one
unit of fuel, since the head of the chain matches). -/
def tABABCr : hashtable_t :=
  ((_hashtable_remove hash0 tABABC keyAB 2 1).getD (tABABC, 0)).1

/-- A fresh 2-slot table with load threshold 1, used to exercise the
growth boundary. -/
def tC7 : hashtable_t := hashtable_create 2 1

/-! ### Preservation lemmas for the insertion and growth paths -/

/-- Structural insertion never changes the capacity field. -/
theorem _hashtable_insert_fst_table_size (hash : List Nat → Nat) (t : hashtable_t)
    (key : List Nat) (keylen : Nat) (value : Nat) (override : Bool) :
    ((_hashtable_insert hash t key keylen value override).1).table_size = t.table_size := by
  simp only [_hashtable_insert]
  repeat' split
  all_goals rfl

/-- Structural insertion never changes `num_items` (the counter is bumped
only by `hashtable_set`). -/
theorem _hashtable_insert_fst_num_items (hash : List Nat → Nat) (t : hashtable_t)
    (key : List Nat) (keylen : Nat) (value : Nat) (override : Bool) :
    ((_hashtable_insert hash t key keylen value override).1).num_items = t.num_items := by
  simp only [_hashtable_insert]
  repeat' split
  all_goals rfl

/-- Structural insertion never changes the load threshold. -/
theorem _hashtable_insert_fst_max_load_factor (hash : List Nat → Nat) (t : hashtable_t)
    (key : List Nat) (keylen : Nat) (value : Nat) (override : Bool) :
    ((_hashtable_insert hash t key keylen value override).1).max_load_factor
      = t.max_load_factor := by
  simp only [_hashtable_insert]
  repeat' split
  all_goals rfl

/-- Migrating a chain during growth leaves `num_items` of the table being
built unchanged. -/
theorem growInsertChain_num_items (hash : List Nat → Nat) (chain : List hash_item_t) :
    ∀ t : hashtable_t, (growInsertChain hash t chain).num_items = t.num_items := by
  induction chain with
  | nil => intro t; rfl
  | cons it rest ih =>
      intro t
      have h : growInsertChain hash t (it :: rest)
          = growInsertChain hash
              ((_hashtable_insert hash t it.key it.keylen it.value false).1) rest := rfl
      rw [h, ih, _hashtable_insert_fst_num_items]

/-- Migrating a chain during growth leaves the capacity unchanged. -/
theorem growInsertChain_table_size (hash : List Nat → Nat) (chain : List hash_item_t) :
    ∀ t : hashtable_t, (growInsertChain hash t chain).table_size = t.table_size := by
  induction chain with
  | nil => intro t; rfl
  | cons it rest ih =>
      intro t
      have h : growInsertChain hash t (it :: rest)
          = growInsertChain hash
              ((_hashtable_insert hash t it.key it.keylen it.value false).1) rest := rfl
      rw [h, ih, _hashtable_insert_fst_table_size]

/-- Migrating a chain during growth leaves the load threshold unchanged. -/
theorem growInsertChain_max_load_factor (hash : List Nat → Nat) (chain : List hash_item_t) :
    ∀ t : hashtable_t, (growInsertChain hash t chain).max_load_factor = t.max_load_factor := by
  induction chain with
  | nil => intro t; rfl
  | cons it rest ih =>
      intro t
      have h : growInsertChain hash t (it :: rest)
          = growInsertChain hash
              ((_hashtable_insert hash t it.key it.keylen it.value false).1) rest := rfl
      rw [h, ih, _hashtable_insert_fst_max_load_factor]

/-- The grown table always reports zero live items: `_hashtable_grow` builds
it with `hashtable_create` and migrates through `_hashtable_insert`, neither
of which touches `num_items`. -/
theorem _hashtable_grow_num_items (hash : List Nat → Nat) (t : hashtable_t) :
    (_hashtable_grow hash t).num_items = 0 := by
  unfold _hashtable_grow
  have h : ∀ (l : List (Option bucket_t)) (acc : hashtable_t),
      (l.foldl (fun acc ob => match ob with
        | none => acc
        | some b => growInsertChain hash acc b.chain) acc).num_items = acc.num_items := by
    intro l
    induction l with
    | nil => intro acc; rfl
    | cons ob rest ih =>
        intro acc
        rw [List.foldl_cons, ih]
        cases ob with
        | none => rfl
        | some b => exact growInsertChain_num_items hash b.chain acc
  rw [h]
  rfl

/-- The grown table's capacity is the old capacity times the growth factor. -/
theorem _hashtable_grow_table_size (hash : List Nat → Nat) (t : hashtable_t) :
    (_hashtable_grow hash t).table_size = t.table_size * HASHTABLE_GROWTH_FACTOR := by
  unfold _hashtable_grow
  have h : ∀ (l : List (Option bucket_t)) (acc : hashtable_t),
      (l.foldl (fun acc ob => match ob with
        | none => acc
        | some b => growInsertChain hash acc b.chain) acc).table_size = acc.table_size := by
    intro l
    induction l with
    | nil => intro acc; rfl
    | cons ob rest ih =>
        intro acc
        rw [List.foldl_cons, ih]
        cases ob with
        | none => rfl
        | some b => exact growInsertChain_table_size hash b.chain acc
  rw [h]
  rfl

/-- The grown table keeps the old load threshold. -/
theorem _hashtable_grow_max_load_factor (hash : List Nat → Nat) (t : hashtable_t) :
    (_hashtable_grow hash t).max_load_factor = t.max_load_factor := by
  unfold _hashtable_grow
  have h : ∀ (l : List (Option bucket_t)) (acc : hashtable_t),
      (l.foldl (fun acc ob => match ob with
        | none => acc
        | some b => growInsertChain hash acc b.chain) acc).max_load_factor
        = acc.max_load_factor := by
    intro l
    induction l with
    | nil => intro acc; rfl
    | cons ob rest ih =>
        intro acc
        rw [List.foldl_cons, ih]
        cases ob with
        | none => rfl
        | some b => exact growInsertChain_max_load_factor hash b.chain acc
  rw [h]
  rfl

end JscHashtable

namespace JscHashtable

/-! ### Claim theorems -/

/-- Claim C1 (refuted by the code): the claim says a stored item matches a
queried key only when both the stored key length and every byte agree, so
keys with a common prefix but different lengths are never treated as equal.
In the source every comparison is `strncmp(·, ·, keylen)` with the *query's*
length and the stored `keylen` field is never consulted, so in a table whose
chain holds "abc" ↦ 3 and "x" ↦ 4, looking up "ab" (length 2) returns the
value stored under "abc" (length 3), `exists` reports true, and
insert-duplicate-detection rejects "ab" as already present, leaving the
table unchanged with code -1. -/
theorem c1_prefix_keys_conflated :
    hashtable_get hash0 tABCX keyAB 2 = .ok (some 3)
    ∧ hashtable_exists_pair hash0 tABCX keyAB 2 = .ok true
    ∧ hashtable_set hash0 tABCX keyAB 2 99 false = (tABCX, -1) :=
  ⟨rfl, rfl, rfl⟩

/-- Claim C2 (refuted by the code): the claim says a key that is absent is
always reported not-found, even when it hashes to a slot whose bucket holds
a single never-collided item.  `_hashtable_find`'s fast path returns that
single item to *any* query on the slot without comparing keys: in a 1-slot
table storing only "a" ↦ 7, looking up the absent key "b" returns 7 and
`exists` returns true, although the code's own chain scan (`_key_in_bucket`)
confirms "b" is not in the bucket. -/
theorem c2_fastpath_skips_key_comparison :
    hashtable_get hash0 tSingleA keyB 1 = .ok (some 7)
    ∧ hashtable_exists_pair hash0 tSingleA keyB 1 = .ok true
    ∧ (tSingleA.buckets.getD 0 none).map (fun b => _key_in_bucket b keyB 1)
        = some none :=
  ⟨rfl, rfl, rfl⟩

/-- Claim C3 (refuted by the code): the claim says a threshold-forced growth
preserves `get` for all stored keys and leaves `itemCount` unchanged.
Inserting "a" into a 1-slot table with load threshold 1 triggers growth; the
migrated table still answers `get("a") = 5`, but its `num_items` is 0, not 1:
`_hashtable_grow` builds the new table with `hashtable_create` and migrates
via `_hashtable_insert`, neither of which increments the counter. -/
theorem c3_grow_zeroes_item_count :
    (hashtable_set hash0 (hashtable_create 1 1) keyA 1 5 false).2 = 0
    ∧ (hashtable_set hash0 (hashtable_create 1 1) keyA 1 5 false).1.table_size = 2
    ∧ hashtable_get hash0 (hashtable_set hash0 (hashtable_create 1 1) keyA 1 5 false).1
        keyA 1 = .ok (some 5)
    ∧ (hashtable_set hash0 (hashtable_create 1 1) keyA 1 5 false).1.num_items = 0 :=
  ⟨rfl, rfl, rfl, rfl⟩

/-- Claim C4 (refuted by the code): the claim says every successful
`hashtable_set` reports success.  In the source only the growth path ever
returns 0; a successful insert that does not reach the load threshold falls
through to the final `return -1`: on a fresh 4-slot table, setting "a" ↦ 5
stores the item (it is retrievable and `num_items` becomes 1) yet the call
returns -1, indistinguishable from an insert failure. -/
theorem c4_successful_insert_reports_failure :
    (hashtable_set hash0 (hashtable_create 4 10) keyA 1 5 false).2 = -1
    ∧ (hashtable_set hash0 (hashtable_create 4 10) keyA 1 5 false).1.num_items = 1
    ∧ hashtable_get hash0 (hashtable_set hash0 (hashtable_create 4 10) keyA 1 5 false).1
        keyA 1 = .ok (some 5) :=
  ⟨rfl, rfl, rfl⟩

/-- Claim C5 (refuted by the code): the claim says `_hashtable_remove`
terminates for every table and key, advancing past non-matching items.  The
source's scan loop never advances `temp_item` (nor `prev_item`) on a
non-match, so removing the absent key "b" from a table whose bucket chain
head is "a" re-examines "a" forever: for every amount of fuel the loop is
still running. -/
theorem c5_remove_scan_never_terminates :
    ∀ fuel : Nat, _hashtable_remove hash0 tSingleA keyB 1 fuel = none := by
  intro fuel
  induction fuel with
  | zero => rfl
  | succ n ih => exact ih

/-- Claim C6 (refuted by the code): the claim says a successful remove makes
subsequent `get`/`exists` report not-found for the removed key and
decrements `itemCount` by exactly 1.  In a 1-slot table holding "ab" ↦ 10
and "abc" ↦ 20, removing "ab" succeeds and does decrement `num_items` from
2 to 1, but a subsequent `get("ab", 2)` returns 20 (and `exists` true): the
`strncmp`-only comparison matches the surviving "abc" against the
two-byte query. -/
theorem c6_removed_key_still_found :
    _hashtable_remove hash0 tABABC keyAB 2 1 = some (tABABCr, 0)
    ∧ tABABC.num_items = 2
    ∧ tABABCr.num_items = 1
    ∧ hashtable_get hash0 tABABCr keyAB 2 = .ok (some 20)
    ∧ hashtable_exists_pair hash0 tABABCr keyAB 2 = .ok true :=
  ⟨rfl, rfl, rfl, rfl, rfl⟩

/-- Claim C7 (holds): for a table with positive capacity and positive load
threshold, after any `hashtable_set` whose structural insert succeeds
(code 0), `num_items / table_size < max_load_factor` holds on the resulting
table; when the incremented count makes `(num_items + 1) / table_size`
reach the threshold exactly, the call performs exactly one growth (capacity
is multiplied by `HASHTABLE_GROWTH_FACTOR` once), and when it stays below
the threshold no growth happens (capacity unchanged, count incremented). -/
theorem c7_load_factor_invariant (hash : List Nat → Nat) (t : hashtable_t)
    (key : List Nat) (keylen : Nat) (v : Nat) (replace : Bool)
    (hts : 0 < t.table_size) (hlf : 0 < t.max_load_factor)
    (hins : (_hashtable_insert hash t key keylen v replace).2 = 0) :
    (hashtable_set hash t key keylen v replace).1.num_items /
        (hashtable_set hash t key keylen v replace).1.table_size <
      (hashtable_set hash t key keylen v replace).1.max_load_factor
    ∧ ((t.num_items + 1) / t.table_size = t.max_load_factor →
        (hashtable_set hash t key keylen v replace).1.table_size
          = t.table_size * HASHTABLE_GROWTH_FACTOR)
    ∧ ((t.num_items + 1) / t.table_size < t.max_load_factor →
        (hashtable_set hash t key keylen v replace).1.table_size = t.table_size
        ∧ (hashtable_set hash t key keylen v replace).1.num_items
            = t.num_items + 1) := by
  have h1 := _hashtable_insert_fst_table_size hash t key keylen v replace
  have h2 := _hashtable_insert_fst_num_items hash t key keylen v replace
  have h3 := _hashtable_insert_fst_max_load_factor hash t key keylen v replace
  by_cases hc : t.max_load_factor ≤ (t.num_items + 1) / t.table_size
  · have hset : hashtable_set hash t key keylen v replace
        = (_hashtable_grow hash
            { (_hashtable_insert hash t key keylen v replace).1 with
              num_items := (_hashtable_insert hash t key keylen v replace).1.num_items + 1 },
           0) := by
      simp only [hashtable_set, hins, if_true]
      rw [if_pos]
      simp only [h2, h3, h1]
      exact hc
    rw [hset]
    refine ⟨?_, ?_, ?_⟩
    · rw [_hashtable_grow_num_items, _hashtable_grow_max_load_factor]
      simp only [h3, Nat.zero_div]
      exact hlf
    · intro _
      rw [_hashtable_grow_table_size]
      simp only [h1]
    · intro hlt
      exact absurd hc (Nat.not_le_of_lt hlt)
  · have hset : hashtable_set hash t key keylen v replace
        = ({ (_hashtable_insert hash t key keylen v replace).1 with
             num_items := (_hashtable_insert hash t key keylen v replace).1.num_items + 1 },
           -1) := by
      simp only [hashtable_set, hins, if_true]
      rw [if_neg]
      simp only [h2, h3, h1]
      exact hc
    rw [hset]
    have hlt : (t.num_items + 1) / t.table_size < t.max_load_factor := Nat.lt_of_not_le hc
    refine ⟨?_, ?_, ?_⟩
    · simp only [h1, h2, h3]
      exact hlt
    · intro heq
      rw [heq] at hlt
      exact absurd hlt (Nat.lt_irrefl _)
    · intro _
      exact ⟨by simp only [h1], by simp only [h2]⟩

/-- Witness for C7 at a concrete input: inserting "a" into a fresh 2-slot
table with threshold 1 succeeds structurally and stays below the threshold
(`(0 + 1) / 2 = 0 < 1`), so the capacity is unchanged and the count is 1. -/
theorem c7_load_factor_invariant_witness :
    0 < tC7.table_size ∧ 0 < tC7.max_load_factor
    ∧ (_hashtable_insert hash0 tC7 keyA 1 5 false).2 = 0
    ∧ ((hashtable_set hash0 tC7 keyA 1 5 false).1.num_items /
          (hashtable_set hash0 tC7 keyA 1 5 false).1.table_size <
        (hashtable_set hash0 tC7 keyA 1 5 false).1.max_load_factor
      ∧ ((tC7.num_items + 1) / tC7.table_size = tC7.max_load_factor →
          (hashtable_set hash0 tC7 keyA 1 5 false).1.table_size
            = tC7.table_size * HASHTABLE_GROWTH_FACTOR)
      ∧ ((tC7.num_items + 1) / tC7.table_size < tC7.max_load_factor →
          (hashtable_set hash0 tC7 keyA 1 5 false).1.table_size = tC7.table_size
          ∧ (hashtable_set hash0 tC7 keyA 1 5 false).1.num_items
              = tC7.num_items + 1)) :=
  ⟨by decide, by decide, rfl,
   c7_load_factor_invariant hash0 tC7 keyA 1 5 false (by decide) (by decide) rfl⟩

/-- Claim C8 (holds): a `hashtable_set` with `replace = false` on a key the
duplicate scan finds in its bucket fails (the C return code -1) and performs
no mutation at all: the returned table is exactly the input table, so the
existing value, the bucket chain, `num_items` and the whole structure are
unaltered. -/
theorem c8_duplicate_set_is_pure_failure (hash : List Nat → Nat) (t : hashtable_t)
    (key : List Nat) (keylen : Nat) (v : Nat) (b : bucket_t)
    (hb : t.buckets.getD (hash (key.take keylen) % t.table_size) none = some b)
    (hfound : (_key_in_bucket b key keylen).isSome = true) :
    hashtable_set hash t key keylen v false = (t, -1) := by
  obtain ⟨it, hit⟩ := Option.isSome_iff_exists.mp hfound
  have hins : _hashtable_insert hash t key keylen v false = (t, -1) := by
    simp only [_hashtable_insert, hb, hit]
    rfl
  simp only [hashtable_set, hins]
  rfl

/-- Witness for C8 at a concrete input: re-setting the already-present key
"a" (without replace) on the table holding "a" ↦ 7 returns the table
unchanged with code -1. -/
theorem c8_duplicate_set_is_pure_failure_witness :
    tSingleA.buckets.getD (hash0 (keyA.take 1) % tSingleA.table_size) none = some bSingleA
    ∧ (_key_in_bucket bSingleA keyA 1).isSome = true
    ∧ hashtable_set hash0 tSingleA keyA 1 99 false = (tSingleA, -1) :=
  ⟨rfl, rfl, c8_duplicate_set_is_pure_failure hash0 tSingleA keyA 1 99 bSingleA rfl rfl⟩

/-- Claim C9 (refuted by the code): the claim (and the header comment) says
a non-zero candidate is adopted when the seed is unset.  The source only
ever writes the derived seed: with the global at 0 a call with candidate 42
leaves the seed 0 instead of adopting 42.  The other two clauses do hold:
an unset seed with candidate 0 adopts the derived value, and an already-set
seed is never changed. -/
theorem c9_nonzero_candidate_never_adopted :
    set_hashtable_seed 0 42 7 = 0
    ∧ set_hashtable_seed 0 0 7 = 7
    ∧ set_hashtable_seed 5 42 7 = 5
    ∧ set_hashtable_seed 5 0 7 = 5 :=
  ⟨rfl, rfl, rfl, rfl⟩

/-- Claim C10 (holds): whenever `num_items` is 0, `hashtable_destroy` visits
no bucket and hands no value to the deallocator (it frees only the slot
array and the table object); `_hashtable_grow` always returns a table whose
`num_items` is 0 regardless of what it migrated; and that state is reachable
with items still stored: growing the table holding "a" ↦ 7 yields a table
that still answers `get("a") = 7` yet reports 0 items, so destroying it with
a deallocator frees no bucket, no item and no value — while destroying the
original table frees one bucket, one item and hands over the value 7. -/
theorem c10_destroy_skips_populated_table :
    (∀ (t : hashtable_t) (hasDealloc : Bool), t.num_items = 0 →
        hashtable_destroy t hasDealloc = ⟨0, [], 0⟩)
    ∧ (∀ (hash : List Nat → Nat) (t : hashtable_t),
        (_hashtable_grow hash t).num_items = 0)
    ∧ ((_hashtable_grow hash0 tSingleA).num_items = 0
       ∧ tSingleA.num_items = 1
       ∧ hashtable_get hash0 (_hashtable_grow hash0 tSingleA) keyA 1 = .ok (some 7)
       ∧ hashtable_destroy (_hashtable_grow hash0 tSingleA) true = ⟨0, [], 0⟩
       ∧ hashtable_destroy tSingleA true = ⟨1, [7], 1⟩) := by
  refine ⟨?_, ?_, rfl, rfl, rfl, rfl, rfl⟩
  · intro t hd h
    unfold hashtable_destroy
    rw [if_neg (fun hne => hne h)]
  · intro hash t
    exact _hashtable_grow_num_items hash t

/-- Witness for C10 at a concrete input: destroying a freshly created (and
hence zero-count) 3-slot table with a deallocator frees no bucket, passes
no value to the deallocator and frees no item. -/
theorem c10_destroy_skips_populated_table_witness :
    hashtable_destroy (hashtable_create 3 5) true = ⟨0, [], 0⟩ :=
  c10_destroy_skips_populated_table.1 (hashtable_create 3 5) true rfl

end JscHashtable
